import Mathlib

/-!
Shallow embedding of the inter-packet-delay search program
(PacketDelay.cpp). The double-precision delay and frame-rate arithmetic of
the source is modelled exactly over the rationals; the MIL_UINT32 cast of a
nonnegative double is modelled as the floor into the naturals, which is
exact for every in-range value the program produces. The iterative search
loop, which in the source blocks on camera acquisition each round, is
modelled as a step function driven by the list of frame rates the camera
would report, consumed one per iteration.
-/

namespace PacketDelay

/-- Embeds IsEqual (PacketDelay.cpp lines 98-104): true when
(A + 0.1 >= B) and (A - 0.1 <= B). -/
def IsEqual (A B : ℚ) : Bool :=
  if (A + 1/10 ≥ B) ∧ (A - 1/10 ≤ B) then true else false

/-- Embeds the cast (MIL_UINT32)(DelayInSeconds * TickFreq) used at lines
370, 430, 437 and 446: truncation of a nonnegative real into an unsigned
integer domain, i.e. the floor. -/
def toTicks (d : ℚ) (f : ℕ) : ℕ :=
  (⌊d * (f : ℚ)⌋).toNat

/-- Embeds struct PacketDelayInfo (lines 51-72); the fields the algorithm
never reads (ProcessFrameCount) are omitted. -/
structure PacketDelayInfo where
  BaseFrameRate : ℚ
  ProcessFrameRate : ℚ
  DelayInSeconds : ℚ
  TickFreq : ℕ
  DelayTickVal : ℕ
  EqualityCounter : ℤ
  Error : Bool
  deriving Repr, DecidableEq

/-- State of one run of the loop in FindInterPacketDelay: the info struct,
the inter-packet-delay register last programmed into the device
(M_GC_INTER_PACKET_DELAY), and the local Done flag (line 378). -/
structure LoopState where
  info : PacketDelayInfo
  deviceDelayReg : ℕ
  done : Bool
  deriving Repr, DecidableEq

/-- Embeds one pass of the while loop of FindInterPacketDelay
(lines 384-461). The measured frame rate that MdigInquire would report at
the current delay is the parameter m. The body first programs
DelayTickVal into the device (line 388), measures, then branches on
IsEqual(BaseFrameRate, ProcessFrameRate) (line 410). -/
def loopBody (s : LoopState) (m : ℚ) : LoopState :=
  let reg : ℕ := s.info.DelayTickVal
  let i0 : PacketDelayInfo := { s.info with ProcessFrameRate := m }
  if IsEqual i0.BaseFrameRate i0.ProcessFrameRate then
    let i1 : PacketDelayInfo :=
      { i0 with EqualityCounter := i0.EqualityCounter + 1 }
    if i1.DelayTickVal = 0 then
      { info := { i1 with DelayInSeconds := 0, Error := true },
        deviceDelayReg := reg, done := true }
    else if i1.EqualityCounter = 3 then
      let d0 : ℚ := i1.DelayInSeconds - i1.DelayInSeconds * 15 / 100
      let d1 : ℚ := if d0 ≤ 0 then 0 else d0
      let t : ℕ := toTicks d1 i1.TickFreq
      { info := { i1 with DelayInSeconds := d1, DelayTickVal := t },
        deviceDelayReg := t, done := true }
    else
      let d : ℚ := i1.DelayInSeconds - i1.DelayInSeconds / 50
      { info := { i1 with DelayInSeconds := d,
                          DelayTickVal := toTicks d i1.TickFreq },
        deviceDelayReg := reg, done := false }
  else
    let i1 : PacketDelayInfo := { i0 with EqualityCounter := 0 }
    let d : ℚ := i1.DelayInSeconds - i1.DelayInSeconds / 10
    let t : ℕ := toTicks d i1.TickFreq
    if t = 0 then
      { info := { i1 with DelayInSeconds := 0, DelayTickVal := t,
                          Error := true },
        deviceDelayReg := reg, done := true }
    else if d ≤ 0 then
      { info := { i1 with DelayInSeconds := 0, DelayTickVal := t },
        deviceDelayReg := reg, done := true }
    else
      { info := { i1 with DelayInSeconds := d, DelayTickVal := t },
        deviceDelayReg := reg, done := false }

/-- Runs the while loop of FindInterPacketDelay against the list of frame
rates the camera reports, one per iteration, stopping when Done is set. -/
def runLoop : LoopState → List ℚ → LoopState
  | s, [] => s
  | s, m :: ms => if s.done then s else runLoop (loopBody s m) ms

/-- Embeds the tail of AcquireReferenceFrameRate (lines 363-370): record
the measured base frame rate, take the theoretical inter-packet delay as
the starting DelayInSeconds, and convert it to ticks. -/
def AcquireReferenceFrameRate (base theoretical : ℚ)
    (i : PacketDelayInfo) : PacketDelayInfo :=
  { i with BaseFrameRate := base,
           DelayInSeconds := theoretical,
           DelayTickVal := toTicks theoretical i.TickFreq }

/-- RunResult entry for one pixel format: the three per-format vectors of
PacketDelayResults written by FindInterPacketDelay (lines 466-468). -/
structure RunResult where
  InterPacketDelayInTicks : ℕ
  InterPacketDelayInSec : ℚ
  ObtainedFrameRate : ℚ
  deriving Repr, DecidableEq

/-- Initial all-zero entry, as assigned in EnumeratePixelFormats
(lines 222-225). -/
def zeroRunResult : RunResult :=
  { InterPacketDelayInTicks := 0, InterPacketDelayInSec := 0,
    ObtainedFrameRate := 0 }

/-- Embeds the result-storing tail of FindInterPacketDelay
(lines 464-469): the entry is overwritten only when Error is false. -/
def storeResult (i : PacketDelayInfo) (r : RunResult) : RunResult :=
  if i.Error = false then
    { InterPacketDelayInTicks := i.DelayTickVal,
      InterPacketDelayInSec := i.DelayInSeconds,
      ObtainedFrameRate := i.ProcessFrameRate }
  else r

/-- Concrete run used to exercise the streak-reset behaviour: base rate 30,
initial delay 1 second at a 1000 Hz tick clock. -/
def demoInfo : PacketDelayInfo :=
  { BaseFrameRate := 30, ProcessFrameRate := 0, DelayInSeconds := 1,
    TickFreq := 1000, DelayTickVal := 1000, EqualityCounter := 0,
    Error := false }

/-- Loop state at entry of FindInterPacketDelay for the demo run. -/
def demoStart : LoopState :=
  { info := demoInfo, deviceDelayReg := 0, done := false }

/-- Measured frame rates giving match, match, mismatch, match, match,
match against the base rate 30. -/
def demoSeq : List ℚ := [30, 30, 20, 30, 30, 30]

/-- Scenario state of the spec: tick frequency 1000000, base frame rate 30,
theoretical starting delay 0.0005 s, fed through
AcquireReferenceFrameRate. -/
def c3Info : PacketDelayInfo :=
  AcquireReferenceFrameRate 30 (1/2000)
    { BaseFrameRate := 0, ProcessFrameRate := 0, DelayInSeconds := 0,
      TickFreq := 1000000, DelayTickVal := 0, EqualityCounter := 0,
      Error := false }

/-- Loop state at entry of the search for the scenario run. -/
def c3Start : LoopState :=
  { info := c3Info, deviceDelayReg := 0, done := false }

/-- Measured frame rates 30.05, 29.96, 30.0 of the scenario. -/
def c3Seq : List ℚ := [601/20, 749/25, 30]

end PacketDelay

namespace PacketDelay

/-- Helper: the tick conversion of a nonpositive delay is zero. -/
theorem toTicks_eq_zero_of_nonpos (d : ℚ) (f : ℕ) (hd : d ≤ 0) :
    toTicks d f = 0 := by
  have h1 : d * (f : ℚ) ≤ 0 :=
    mul_nonpos_iff.mpr (Or.inr ⟨hd, Nat.cast_nonneg f⟩)
  have h2 : ⌊d * (f : ℚ)⌋ ≤ 0 := by
    have := Int.floor_le_floor (α := ℚ) h1
    simpa using this
  unfold toTicks
  omega

/-- Unfolding lemma: the boolean IsEqual holds exactly when both source
comparisons hold. -/
theorem isEqual_true_iff (A B : ℚ) :
    IsEqual A B = true ↔ (A + 1/10 ≥ B ∧ A - 1/10 ≤ B) := by
  unfold IsEqual
  split
  case isTrue h => simpa using h
  case isFalse h => simpa using h

/-- C4: for all frame rates, the approximate-equality test holds iff
the absolute difference is at most 0.1, and it is symmetric in its two
arguments. -/
theorem isEqual_iff_abs_le_and_symm (measured base : ℚ) :
    (IsEqual measured base = true ↔ |measured - base| ≤ 1/10) ∧
    IsEqual measured base = IsEqual base measured := by
  constructor
  · rw [isEqual_true_iff, abs_sub_le_iff]
    constructor
    · rintro ⟨h1, h2⟩
      exact ⟨by linarith, by linarith⟩
    · rintro ⟨h1, h2⟩
      exact ⟨by linarith, by linarith⟩
  · cases hmb : IsEqual measured base with
    | true =>
      have hab := (isEqual_true_iff measured base).mp hmb
      exact ((isEqual_true_iff base measured).mpr
        ⟨by linarith [hab.2], by linarith [hab.1]⟩).symm
    | false =>
      cases hba : IsEqual base measured with
      | false => rfl
      | true =>
        have hab := (isEqual_true_iff base measured).mp hba
        have hcontra : IsEqual measured base = true :=
          (isEqual_true_iff measured base).mpr
            ⟨by linarith [hab.2], by linarith [hab.1]⟩
        rw [hmb] at hcontra
        exact absurd hcontra (by simp)

/-- C1: the loop exits with done set and no error exactly when the
iteration matches, the programmed ticks are nonzero, and the equality
streak reaches 3; a match increments the streak by 1 and a mismatch
resets it to 0; and on the measurement sequence match, match, mismatch,
match, match, match the demo run converges on the 6th iteration and not
on the 3rd or 5th. -/
theorem convergence_iff_three_streak (s : LoopState) (m : ℚ)
    (hE : s.info.Error = false) :
    (((loopBody s m).done = true ∧ (loopBody s m).info.Error = false) ↔
      (IsEqual s.info.BaseFrameRate m = true ∧ s.info.DelayTickVal ≠ 0 ∧
        s.info.EqualityCounter + 1 = 3)) ∧
    (IsEqual s.info.BaseFrameRate m = true →
      (loopBody s m).info.EqualityCounter = s.info.EqualityCounter + 1) ∧
    (IsEqual s.info.BaseFrameRate m = false →
      (loopBody s m).info.EqualityCounter = 0) ∧
    ((runLoop demoStart [30, 30, 20]).done = false ∧
     (runLoop demoStart [30, 30, 20, 30, 30]).done = false ∧
     (runLoop demoStart demoSeq).done = true ∧
     (runLoop demoStart demoSeq).info.Error = false ∧
     (runLoop demoStart demoSeq).info.EqualityCounter = 3) := by
  refine ⟨?_, ?_, ?_, ?_⟩
  · cases hm : IsEqual s.info.BaseFrameRate m with
    | true =>
      by_cases ht : s.info.DelayTickVal = 0
      · simp [loopBody, hm, ht]
      · by_cases hc : s.info.EqualityCounter + 1 = 3
        · simp [loopBody, hm, ht, hc, hE]
        · simp [loopBody, hm, ht, hc]
    | false =>
      by_cases ht : toTicks (s.info.DelayInSeconds -
          s.info.DelayInSeconds / 10) s.info.TickFreq = 0
      · simp [loopBody, hm, ht]
      · have hd : ¬(s.info.DelayInSeconds - s.info.DelayInSeconds / 10 ≤ 0) := by
          intro h
          exact ht (toTicks_eq_zero_of_nonpos _ _ h)
        simp [loopBody, hm, ht, hd]
  · intro hm
    by_cases ht : s.info.DelayTickVal = 0
    · simp [loopBody, hm, ht]
    · by_cases hc : s.info.EqualityCounter + 1 = 3 <;>
        simp [loopBody, hm, ht, hc]
  · intro hm
    by_cases ht : toTicks (s.info.DelayInSeconds -
        s.info.DelayInSeconds / 10) s.info.TickFreq = 0
    · simp [loopBody, hm, ht]
    · by_cases hd : s.info.DelayInSeconds - s.info.DelayInSeconds / 10 ≤ 0 <;>
        simp [loopBody, hm, ht, hd]
  · refine ⟨?_, ?_, ?_, ?_, ?_⟩ <;>
      norm_num [runLoop, loopBody, demoStart, demoInfo, demoSeq, IsEqual,
        toTicks]

/-- C2: when the loop exits through the 3-streak success branch, the final
DelayInSeconds is 0.85 of its previous value clamped below at 0, the final
DelayTickVal is its floor tick conversion, that value is programmed into
the device register, and when the run carries no error it becomes the
stored answer. -/
theorem convergence_applies_safety_margin (s : LoopState) (m : ℚ)
    (hm : IsEqual s.info.BaseFrameRate m = true)
    (ht : s.info.DelayTickVal ≠ 0)
    (hc : s.info.EqualityCounter + 1 = 3) :
    (loopBody s m).info.DelayInSeconds =
      max 0 (17/20 * s.info.DelayInSeconds) ∧
    (loopBody s m).info.DelayTickVal =
      toTicks (max 0 (17/20 * s.info.DelayInSeconds)) s.info.TickFreq ∧
    (loopBody s m).deviceDelayReg = (loopBody s m).info.DelayTickVal ∧
    (loopBody s m).done = true ∧
    (loopBody s m).info.Error = s.info.Error ∧
    (s.info.Error = false →
      (storeResult (loopBody s m).info zeroRunResult).InterPacketDelayInTicks =
        toTicks (max 0 (17/20 * s.info.DelayInSeconds)) s.info.TickFreq) := by
  have key : (if s.info.DelayInSeconds ≤ s.info.DelayInSeconds * 15 / 100
        then (0 : ℚ)
        else s.info.DelayInSeconds - s.info.DelayInSeconds * 15 / 100) =
      max 0 (17/20 * s.info.DelayInSeconds) := by
    rcases le_or_lt s.info.DelayInSeconds (s.info.DelayInSeconds * 15 / 100)
      with h | h
    · rw [if_pos h]
      exact (max_eq_left (by linarith)).symm
    · rw [if_neg (not_le.mpr h), max_eq_right (by linarith)]
      ring
  refine ⟨?_, ?_, ?_, ?_, ?_, ?_⟩
  · simp [loopBody, hm, ht, hc, key]
  · simp [loopBody, hm, ht, hc, key]
  · simp [loopBody, hm, ht, hc]
  · simp [loopBody, hm, ht, hc]
  · simp [loopBody, hm, ht, hc]
  · intro hE
    simp [loopBody, hm, ht, hc, key, storeResult, hE]

/-- C3: on the scenario with tick frequency 1000000, base frame rate 30
and theoretical delay 0.0005 s, the measured rates 30.05, 29.96, 30.0 give
streaks 1 and 2 with delays 0.00049 and 0.0004802, then convergence on the
3rd iteration with final delay 0.00040817 s and 408 ticks. -/
theorem scenario_converges_to_408_ticks :
    ((runLoop c3Start [601/20]).info.EqualityCounter = 1 ∧
     (runLoop c3Start [601/20]).info.DelayInSeconds = 49/100000 ∧
     (runLoop c3Start [601/20]).done = false) ∧
    ((runLoop c3Start [601/20, 749/25]).info.EqualityCounter = 2 ∧
     (runLoop c3Start [601/20, 749/25]).info.DelayInSeconds = 2401/5000000 ∧
     (runLoop c3Start [601/20, 749/25]).done = false) ∧
    ((runLoop c3Start c3Seq).done = true ∧
     (runLoop c3Start c3Seq).info.Error = false ∧
     (runLoop c3Start c3Seq).info.EqualityCounter = 3 ∧
     (runLoop c3Start c3Seq).info.DelayInSeconds = 40817/100000000 ∧
     (runLoop c3Start c3Seq).info.DelayTickVal = 408) := by
  refine ⟨⟨?_, ?_, ?_⟩, ⟨?_, ?_, ?_⟩, ?_, ?_, ?_, ?_, ?_⟩ <;>
    (norm_num [runLoop, loopBody, c3Start, c3Info, c3Seq,
      AcquireReferenceFrameRate, IsEqual, toTicks]
     try decide)

/-- C5: a matching iteration at zero programmed ticks marks the run failed
and stops it regardless of the streak count, which is still incremented. -/
theorem match_at_zero_ticks_fails (s : LoopState) (m : ℚ)
    (hm : IsEqual s.info.BaseFrameRate m = true)
    (ht : s.info.DelayTickVal = 0) :
    (loopBody s m).info.Error = true ∧
    (loopBody s m).done = true ∧
    (loopBody s m).info.DelayInSeconds = 0 ∧
    (loopBody s m).info.EqualityCounter = s.info.EqualityCounter + 1 := by
  refine ⟨?_, ?_, ?_, ?_⟩ <;> simp [loopBody, hm, ht]

/-- C6: a mismatching iteration resets the streak to 0, shrinks the delay
by one tenth and reconverts it; a zero tick result marks the run failed
and stops it, a nonpositive delay with nonzero ticks stops it without
marking failure, and otherwise the loop continues with the shrunk
values. -/
theorem mismatch_resets_and_shrinks (s : LoopState) (m : ℚ)
    (hm : IsEqual s.info.BaseFrameRate m = false) :
    (loopBody s m).info.EqualityCounter = 0 ∧
    (toTicks (s.info.DelayInSeconds - s.info.DelayInSeconds / 10)
        s.info.TickFreq = 0 →
      (loopBody s m).info.Error = true ∧ (loopBody s m).done = true ∧
      (loopBody s m).info.DelayInSeconds = 0) ∧
    (toTicks (s.info.DelayInSeconds - s.info.DelayInSeconds / 10)
        s.info.TickFreq ≠ 0 →
      s.info.DelayInSeconds - s.info.DelayInSeconds / 10 ≤ 0 →
      (loopBody s m).done = true ∧
      (loopBody s m).info.Error = s.info.Error) ∧
    (toTicks (s.info.DelayInSeconds - s.info.DelayInSeconds / 10)
        s.info.TickFreq ≠ 0 →
      ¬(s.info.DelayInSeconds - s.info.DelayInSeconds / 10 ≤ 0) →
      (loopBody s m).info.DelayInSeconds =
        s.info.DelayInSeconds - s.info.DelayInSeconds / 10 ∧
      (loopBody s m).info.DelayTickVal =
        toTicks (s.info.DelayInSeconds - s.info.DelayInSeconds / 10)
          s.info.TickFreq ∧
      (loopBody s m).done = false ∧
      (loopBody s m).info.Error = s.info.Error) := by
  refine ⟨?_, ?_, ?_, ?_⟩
  · by_cases ht : toTicks (s.info.DelayInSeconds -
        s.info.DelayInSeconds / 10) s.info.TickFreq = 0
    · simp [loopBody, hm, ht]
    · by_cases hd : s.info.DelayInSeconds - s.info.DelayInSeconds / 10 ≤ 0 <;>
        simp [loopBody, hm, ht, hd]
  · intro ht
    simp [loopBody, hm, ht]
  · intro ht hd
    have hd2 : s.info.DelayInSeconds ≤ s.info.DelayInSeconds / 10 := by
      linarith
    simp [loopBody, hm, ht, hd2]
  · intro ht hd
    have hd2 : ¬ s.info.DelayInSeconds ≤ s.info.DelayInSeconds / 10 := by
      intro h
      exact hd (by linarith)
    simp [loopBody, hm, ht, hd2]

/-- C7: the tick conversion of a nonnegative delay at a positive tick
frequency is exactly the floor of the product, never exceeds the exact
product, and the initial conversion after measuring the baseline uses the
same conversion. -/
theorem tick_conversion_is_floor (d : ℚ) (f : ℕ) (base th : ℚ)
    (i : PacketDelayInfo) (hd : 0 ≤ d) (hf0 : 0 < f) :
    ((toTicks d f : ℤ) = ⌊d * (f : ℚ)⌋) ∧
    ((toTicks d f : ℚ) ≤ d * (f : ℚ)) ∧
    ((AcquireReferenceFrameRate base th i).DelayTickVal =
      toTicks th i.TickFreq) := by
  have h0 : (0 : ℚ) ≤ d * (f : ℚ) := mul_nonneg hd (Nat.cast_nonneg f)
  have h1 : 0 ≤ ⌊d * (f : ℚ)⌋ := Int.floor_nonneg.mpr h0
  have h2 : (toTicks d f : ℤ) = ⌊d * (f : ℚ)⌋ := by
    unfold toTicks
    omega
  refine ⟨h2, ?_, rfl⟩
  have h3 : ((toTicks d f : ℤ) : ℚ) ≤ d * (f : ℚ) := by
    rw [h2]
    exact Int.floor_le _
  calc (toTicks d f : ℚ) = ((toTicks d f : ℤ) : ℚ) := by push_cast; ring
    _ ≤ d * (f : ℚ) := h3

/-- Helper: one loop pass never increases a nonnegative DelayInSeconds and
keeps it nonnegative. -/
theorem loopBody_delay_bounds (s : LoopState) (m : ℚ)
    (hd : 0 ≤ s.info.DelayInSeconds) :
    (loopBody s m).info.DelayInSeconds ≤ s.info.DelayInSeconds ∧
    0 ≤ (loopBody s m).info.DelayInSeconds := by
  cases hm : IsEqual s.info.BaseFrameRate m with
  | true =>
    by_cases ht : s.info.DelayTickVal = 0
    · simp [loopBody, hm, ht]
      exact hd
    · by_cases hc : s.info.EqualityCounter + 1 = 3
      · simp [loopBody, hm, ht, hc]
        constructor <;> split <;> linarith
      · simp [loopBody, hm, ht, hc]
        constructor <;> linarith
  | false =>
    by_cases ht : toTicks (s.info.DelayInSeconds -
        s.info.DelayInSeconds / 10) s.info.TickFreq = 0
    · simp [loopBody, hm, ht]
      exact hd
    · by_cases h0 : s.info.DelayInSeconds ≤ s.info.DelayInSeconds / 10
      · simp [loopBody, hm, ht, h0]
        exact hd
      · simp [loopBody, hm, ht, h0]
        constructor <;> linarith

/-- Helper: the whole loop never increases a nonnegative DelayInSeconds
and keeps it nonnegative. -/
theorem runLoop_delay_bounds (s : LoopState) (ms : List ℚ)
    (hd : 0 ≤ s.info.DelayInSeconds) :
    (runLoop s ms).info.DelayInSeconds ≤ s.info.DelayInSeconds ∧
    0 ≤ (runLoop s ms).info.DelayInSeconds := by
  induction ms generalizing s with
  | nil => exact ⟨le_refl _, hd⟩
  | cons m ms ih =>
    rw [runLoop]
    by_cases hdone : s.done = true
    · simp only [hdone, if_true]
      exact ⟨le_refl _, hd⟩
    · simp only [hdone, if_false]
      have hb := loopBody_delay_bounds s m hd
      have hrest := ih (loopBody s m) hb.2
      exact ⟨le_trans hrest.1 hb.1, hrest.2⟩

/-- C8: starting from a nonnegative delay, every loop update leaves
DelayInSeconds at most its previous value and nonnegative, and a whole run
never increases it. -/
theorem delay_monotonically_nonincreasing (s : LoopState) (m : ℚ)
    (ms : List ℚ) (hd : 0 ≤ s.info.DelayInSeconds) :
    (loopBody s m).info.DelayInSeconds ≤ s.info.DelayInSeconds ∧
    0 ≤ (loopBody s m).info.DelayInSeconds ∧
    (runLoop s ms).info.DelayInSeconds ≤ s.info.DelayInSeconds := by
  refine ⟨(loopBody_delay_bounds s m hd).1, (loopBody_delay_bounds s m hd).2,
    (runLoop_delay_bounds s ms hd).1⟩

/-- C9: the per-format result entry is overwritten with the final ticks,
seconds and obtained frame rate exactly when the run ends without error;
a failed run leaves the entry untouched. -/
theorem result_populated_iff_no_error (i : PacketDelayInfo) (r : RunResult) :
    (i.Error = false →
      storeResult i r =
        { InterPacketDelayInTicks := i.DelayTickVal,
          InterPacketDelayInSec := i.DelayInSeconds,
          ObtainedFrameRate := i.ProcessFrameRate }) ∧
    (i.Error = true → storeResult i r = r) := by
  constructor <;> intro h <;> simp [storeResult, h]

/-- C10: when a mismatching iteration is entered with a positive delay,
the shrunk delay is still positive, so the mismatch branch can stop the
loop only through the zero-tick failure exit. -/
theorem mismatch_stop_needs_failure (s : LoopState) (m : ℚ)
    (hm : IsEqual s.info.BaseFrameRate m = false)
    (hd : 0 < s.info.DelayInSeconds) :
    (0 < s.info.DelayInSeconds - s.info.DelayInSeconds / 10) ∧
    ((loopBody s m).done = true → (loopBody s m).info.Error = true) := by
  refine ⟨by linarith, ?_⟩
  by_cases ht : toTicks (s.info.DelayInSeconds -
      s.info.DelayInSeconds / 10) s.info.TickFreq = 0
  · simp [loopBody, hm, ht]
  · have h0 : ¬ s.info.DelayInSeconds ≤ s.info.DelayInSeconds / 10 := by
      intro h
      linarith
    simp [loopBody, hm, ht, h0]

/-- Concrete info two matches into a streak, used by the witness
theorems. -/
def streakTwoInfo : PacketDelayInfo :=
  { BaseFrameRate := 30, ProcessFrameRate := 30, DelayInSeconds := 1/2,
    TickFreq := 1000, DelayTickVal := 500, EqualityCounter := 2,
    Error := false }

/-- Concrete loop state two matches into a streak, used by the witness
theorems. -/
def streakTwoState : LoopState :=
  { info := streakTwoInfo, deviceDelayReg := 500, done := false }

/-- Concrete info with zero programmed ticks, used by the witness of the
zero-tick failure claim. -/
def zeroTickInfo : PacketDelayInfo :=
  { BaseFrameRate := 30, ProcessFrameRate := 30, DelayInSeconds := 0,
    TickFreq := 1000, DelayTickVal := 0, EqualityCounter := 2,
    Error := false }

/-- Concrete loop state with zero programmed ticks, used by the witness of
the zero-tick failure claim. -/
def zeroTickState : LoopState :=
  { info := zeroTickInfo, deviceDelayReg := 0, done := false }

/-- Concrete final info of a successful run, used by the witness of the
result-storing claim. -/
def doneInfo : PacketDelayInfo :=
  { BaseFrameRate := 30, ProcessFrameRate := 149/5,
    DelayInSeconds := 40817/100000000, TickFreq := 1000000,
    DelayTickVal := 408, EqualityCounter := 3, Error := false }

/-- Witness for the convergence claim at a state two matches into the
streak with the measurement 30. -/
theorem convergence_iff_three_streak_holds :
    streakTwoState.info.Error = false ∧
    ((((loopBody streakTwoState 30).done = true ∧
        (loopBody streakTwoState 30).info.Error = false) ↔
       (IsEqual streakTwoState.info.BaseFrameRate 30 = true ∧
        streakTwoState.info.DelayTickVal ≠ 0 ∧
        streakTwoState.info.EqualityCounter + 1 = 3)) ∧
     (IsEqual streakTwoState.info.BaseFrameRate 30 = true →
       (loopBody streakTwoState 30).info.EqualityCounter =
         streakTwoState.info.EqualityCounter + 1) ∧
     (IsEqual streakTwoState.info.BaseFrameRate 30 = false →
       (loopBody streakTwoState 30).info.EqualityCounter = 0) ∧
     ((runLoop demoStart [30, 30, 20]).done = false ∧
      (runLoop demoStart [30, 30, 20, 30, 30]).done = false ∧
      (runLoop demoStart demoSeq).done = true ∧
      (runLoop demoStart demoSeq).info.Error = false ∧
      (runLoop demoStart demoSeq).info.EqualityCounter = 3)) :=
  ⟨rfl, convergence_iff_three_streak streakTwoState 30 rfl⟩

/-- Witness for the safety-margin claim at a state two matches into the
streak with the measurement 30. -/
theorem convergence_applies_safety_margin_holds :
    IsEqual streakTwoState.info.BaseFrameRate 30 = true ∧
    streakTwoState.info.DelayTickVal ≠ 0 ∧
    streakTwoState.info.EqualityCounter + 1 = 3 ∧
    ((loopBody streakTwoState 30).info.DelayInSeconds =
       max 0 (17/20 * streakTwoState.info.DelayInSeconds) ∧
     (loopBody streakTwoState 30).info.DelayTickVal =
       toTicks (max 0 (17/20 * streakTwoState.info.DelayInSeconds))
         streakTwoState.info.TickFreq ∧
     (loopBody streakTwoState 30).deviceDelayReg =
       (loopBody streakTwoState 30).info.DelayTickVal ∧
     (loopBody streakTwoState 30).done = true ∧
     (loopBody streakTwoState 30).info.Error = streakTwoState.info.Error ∧
     (streakTwoState.info.Error = false →
       (storeResult (loopBody streakTwoState 30).info
           zeroRunResult).InterPacketDelayInTicks =
         toTicks (max 0 (17/20 * streakTwoState.info.DelayInSeconds))
           streakTwoState.info.TickFreq)) :=
  ⟨by norm_num [IsEqual, streakTwoState, streakTwoInfo], by decide, by decide,
    convergence_applies_safety_margin streakTwoState 30
      (by norm_num [IsEqual, streakTwoState, streakTwoInfo]) (by decide) (by decide)⟩

/-- Witness for the zero-tick failure claim at a state whose third
consecutive match happens at zero programmed ticks. -/
theorem match_at_zero_ticks_fails_holds :
    IsEqual zeroTickState.info.BaseFrameRate 30 = true ∧
    zeroTickState.info.DelayTickVal = 0 ∧
    ((loopBody zeroTickState 30).info.Error = true ∧
     (loopBody zeroTickState 30).done = true ∧
     (loopBody zeroTickState 30).info.DelayInSeconds = 0 ∧
     (loopBody zeroTickState 30).info.EqualityCounter =
       zeroTickState.info.EqualityCounter + 1) :=
  ⟨by norm_num [IsEqual, zeroTickState, zeroTickInfo], rfl,
    match_at_zero_ticks_fails zeroTickState 30
      (by norm_num [IsEqual, zeroTickState, zeroTickInfo]) rfl⟩

/-- Witness for the mismatch-branch claim at a state two matches into the
streak with the mismatching measurement 20. -/
theorem mismatch_resets_and_shrinks_holds :
    IsEqual streakTwoState.info.BaseFrameRate 20 = false ∧
    ((loopBody streakTwoState 20).info.EqualityCounter = 0 ∧
     (toTicks (streakTwoState.info.DelayInSeconds -
         streakTwoState.info.DelayInSeconds / 10)
         streakTwoState.info.TickFreq = 0 →
       (loopBody streakTwoState 20).info.Error = true ∧
       (loopBody streakTwoState 20).done = true ∧
       (loopBody streakTwoState 20).info.DelayInSeconds = 0) ∧
     (toTicks (streakTwoState.info.DelayInSeconds -
         streakTwoState.info.DelayInSeconds / 10)
         streakTwoState.info.TickFreq ≠ 0 →
       streakTwoState.info.DelayInSeconds -
         streakTwoState.info.DelayInSeconds / 10 ≤ 0 →
       (loopBody streakTwoState 20).done = true ∧
       (loopBody streakTwoState 20).info.Error =
         streakTwoState.info.Error) ∧
     (toTicks (streakTwoState.info.DelayInSeconds -
         streakTwoState.info.DelayInSeconds / 10)
         streakTwoState.info.TickFreq ≠ 0 →
       ¬(streakTwoState.info.DelayInSeconds -
         streakTwoState.info.DelayInSeconds / 10 ≤ 0) →
       (loopBody streakTwoState 20).info.DelayInSeconds =
         streakTwoState.info.DelayInSeconds -
           streakTwoState.info.DelayInSeconds / 10 ∧
       (loopBody streakTwoState 20).info.DelayTickVal =
         toTicks (streakTwoState.info.DelayInSeconds -
             streakTwoState.info.DelayInSeconds / 10)
           streakTwoState.info.TickFreq ∧
       (loopBody streakTwoState 20).done = false ∧
       (loopBody streakTwoState 20).info.Error =
         streakTwoState.info.Error)) :=
  ⟨by norm_num [IsEqual, streakTwoState, streakTwoInfo],
    mismatch_resets_and_shrinks streakTwoState 20
      (by norm_num [IsEqual, streakTwoState, streakTwoInfo])⟩

/-- Witness for the floor-conversion claim at delay one half second and
tick frequency 1000. -/
theorem tick_conversion_is_floor_holds :
    (0 : ℚ) ≤ 1/2 ∧ (0 : ℕ) < 1000 ∧
    (((toTicks (1/2) 1000 : ℤ) = ⌊(1/2 : ℚ) * ((1000 : ℕ) : ℚ)⌋) ∧
     ((toTicks (1/2) 1000 : ℚ) ≤ (1/2 : ℚ) * ((1000 : ℕ) : ℚ)) ∧
     ((AcquireReferenceFrameRate 30 (1/2) doneInfo).DelayTickVal =
       toTicks (1/2) doneInfo.TickFreq)) :=
  ⟨by norm_num, by decide,
    tick_conversion_is_floor (1/2) 1000 30 (1/2) doneInfo
      (by norm_num) (by decide)⟩

/-- Witness for the monotonicity claim on the demo run. -/
theorem delay_monotonically_nonincreasing_holds :
    (0 : ℚ) ≤ demoStart.info.DelayInSeconds ∧
    ((loopBody demoStart 30).info.DelayInSeconds ≤
       demoStart.info.DelayInSeconds ∧
     0 ≤ (loopBody demoStart 30).info.DelayInSeconds ∧
     (runLoop demoStart demoSeq).info.DelayInSeconds ≤
       demoStart.info.DelayInSeconds) :=
  ⟨by norm_num [demoStart, demoInfo],
    delay_monotonically_nonincreasing demoStart 30 demoSeq
      (by norm_num [demoStart, demoInfo])⟩

/-- Witness for the result-storing claim at the final info of a
successful run. -/
theorem result_populated_iff_no_error_holds :
    (doneInfo.Error = false →
      storeResult doneInfo zeroRunResult =
        { InterPacketDelayInTicks := doneInfo.DelayTickVal,
          InterPacketDelayInSec := doneInfo.DelayInSeconds,
          ObtainedFrameRate := doneInfo.ProcessFrameRate }) ∧
    (doneInfo.Error = true →
      storeResult doneInfo zeroRunResult = zeroRunResult) :=
  result_populated_iff_no_error doneInfo zeroRunResult

/-- Witness for the unreachable-stop claim at a positive-delay state with
the mismatching measurement 20. -/
theorem mismatch_stop_needs_failure_holds :
    IsEqual streakTwoState.info.BaseFrameRate 20 = false ∧
    (0 : ℚ) < streakTwoState.info.DelayInSeconds ∧
    ((0 < streakTwoState.info.DelayInSeconds -
        streakTwoState.info.DelayInSeconds / 10) ∧
     ((loopBody streakTwoState 20).done = true →
       (loopBody streakTwoState 20).info.Error = true)) :=
  ⟨by norm_num [IsEqual, streakTwoState, streakTwoInfo], by norm_num [streakTwoState, streakTwoInfo],
    mismatch_stop_needs_failure streakTwoState 20
      (by norm_num [IsEqual, streakTwoState, streakTwoInfo])
      (by norm_num [streakTwoState, streakTwoInfo])⟩

end PacketDelay
